import Mathlib

/-!
Verification of the directive-lifecycle engine of the logseq-cli-browser
repository against its natural-language specification.

The Python sources are shallowly embedded below.  Machine floats that hold
durations, ages, retry delays and dollar costs are modelled as exact
rationals (`ℚ`); file contents are modelled as lists of lines, a line being
a list of characters; filesystem enumeration order is an explicit list.
Each definition carries a comment naming the source function it embeds.
-/

namespace Pipeline

/-! ### Lifecycle folders

`EngageAgent.__init__` (src/agents/engage_agent.py, lines 30-34) fixes the
five lifecycle directories (`possible-exemplars` is the on-disk name of the
exemplar class) plus the sibling `processing` staging directory used by
`_claim_directive`. -/

inductive Folder where
  | new
  | success
  | failed
  | slow
  | exemplar
  | processing
deriving DecidableEq

/-- The terminal (completion-class) folders, in the spec's sense: a
directive is finally relocated into one of these four. -/
def terminal_folders : List Folder :=
  [Folder.success, Folder.failed, Folder.slow, Folder.exemplar]

/-! ### Settings defaults (src/lib/settings.py, lines 26-27, 37, 54). -/

def settings_default_exemplar_threshold : ℚ := 30

def settings_default_exemplar_enabled : Bool := true

def settings_default_retry_attempts : Nat := 3

def settings_default_retry_delay : ℚ := 1

/-! ### Relocation classification

`EngageAgent.move_directive` (engage_agent.py, lines 669-695) picks the
destination directory from the success flag and the measured duration:
exemplar when enabled and `duration <= exemplar_threshold`, else slow when
`duration > 60`, else success; failures always go to `failed`. -/

def move_dest (succ : Bool) (duration threshold : ℚ) (exemplar_enabled : Bool) : Folder :=
  if succ then
    if exemplar_enabled && decide (duration ≤ threshold) then Folder.exemplar
    else if decide (duration > 60) then Folder.slow
    else Folder.success
  else Folder.failed

/-- Written from the SPEC's words (§4.6 step 9 / claim C5), to be compared
with `move_dest` which is written from the code: failure → failed; success
with duration ≤ exemplar threshold (when enabled) → exemplar; success with
duration > 60 → slow; otherwise success. -/
def spec_move_class (succ : Bool) (duration threshold : ℚ) (exemplar_enabled : Bool) : Folder :=
  if succ = false then Folder.failed
  else if exemplar_enabled = true ∧ duration ≤ threshold then Folder.exemplar
  else if duration > 60 then Folder.slow
  else Folder.success

/-! ### Line-level file content

A directive document is a list of lines; a line is a list of characters.
`EngageAgent._update_directive_status` (engage_agent.py, lines 697-705)
rewrites the YAML status field with `re.sub(r'status: .*', ...)` over the
whole text; since `.` does not cross newlines the substitution acts line by
line, replacing, in each line that contains the pattern, everything from
the first occurrence of `status: ` to the end of the line. -/

abbrev Line := List Char

/-- The literal pattern `status: ` of the regex in
`_update_directive_status` and in `update_output_file` (line 556). -/
def statusPat : Line := "status: ".data

/-- Whether `pat` is an initial segment of `l`. -/
def hasPrefixL : List Char → List Char → Bool
  | [], _ => true
  | _ :: _, [] => false
  | p :: ps, c :: cs => p = c && hasPrefixL ps cs

/-- Index of the first (leftmost) occurrence of `pat` inside `l`, the way a
regex engine scans for a match. -/
def findSub (pat : List Char) : List Char → Option Nat
  | [] => if pat.isEmpty then some 0 else none
  | c :: cs =>
    if hasPrefixL pat (c :: cs) then some 0
    else (findSub pat cs).map (· + 1)

/-- One line under `re.sub(r'status: .*', f'status: {new_status}', ...)`:
if the line contains `status: `, everything from the first occurrence to
the end of the line is replaced by `status: ` followed by the new value;
otherwise the line is unchanged. -/
def sub_status_line (newStatus : Line) (line : Line) : Line :=
  match findSub statusPat line with
  | none => line
  | some i => line.take i ++ statusPat ++ newStatus

/-- `EngageAgent._update_directive_status`: on a readable file the regex
substitution is applied to every line and the result written back; when the
read raises, the handler only logs and the file is left untouched. -/
def update_directive_status (readable : Bool) (content : List Line) (newStatus : Line) :
    List Line :=
  if readable then content.map (sub_status_line newStatus) else content

/-- The value of the on-disk status field: the text after `status: ` on the
first line that contains the pattern. -/
def status_value (content : List Line) : Option Line :=
  match content.find? (fun l => (findSub statusPat l).isSome) with
  | none => none
  | some l =>
    match findSub statusPat l with
    | none => none
    | some i => some (l.drop (i + statusPat.length))

/-! ### Cost accounting

`EngageAgent._calculate_cost` (engage_agent.py, lines 369-391) holds a
per-(platform, model) price table in dollars per 1K tokens and computes
`tokens_in/1000 * input + tokens_out/1000 * output`, with `{'input': 0,
'output': 0}` when the model (or platform) is absent. -/

def pricing_table (platform model : String) : Option (ℚ × ℚ) :=
  if platform = "claude" then
    if model = "claude-3-opus" then some (0.015, 0.075)
    else if model = "claude-3-sonnet" then some (0.003, 0.015)
    else if model = "claude-3-haiku" then some (0.00025, 0.00125)
    else none
  else if platform = "openai" then
    if model = "gpt-4" then some (0.03, 0.06)
    else if model = "gpt-4-turbo" then some (0.01, 0.03)
    else if model = "gpt-3.5-turbo" then some (0.0005, 0.0015)
    else none
  else none

def calculate_cost (platform model : String) (tokens_in tokens_out : Nat) : ℚ :=
  let p := (pricing_table platform model).getD (0, 0)
  (tokens_in : ℚ) / 1000 * p.1 + (tokens_out : ℚ) / 1000 * p.2

/-- Zero-pads a fraction-of-10000 to four digits. -/
def pad4 (n : Nat) : String :=
  if n < 10 then "000" ++ toString n
  else if n < 100 then "00" ++ toString n
  else if n < 1000 then "0" ++ toString n
  else toString n

/-- `f"${cost:.4f}"` in `update_output_file` (engage_agent.py, line 562)
and `_create_output_file_for_directive` (line 618): the cost is rendered
with exactly four digits after the decimal point.  Python rounds the
nearest IEEE double of the cost; for the boundary value 0.00105 the double
of `0.0003 + 0.00075` lies strictly above 21/20000, so Python rounds up,
which over exact rationals is round-half-up.  Costs from the table are
nonnegative. -/
def cost_field (cost : ℚ) : String :=
  let m : ℕ := (Int.floor (cost * 10000 + 1 / 2)).toNat
  "$" ++ toString (m / 10000) ++ "." ++ pad4 (m % 10000)

/-! ### Prerequisite references

`EngageAgent.check_prerequisites_met` (engage_agent.py, lines 105-142)
first strips wiki-link brackets with `re.sub(r'\[\[(.+?)\]\]', r'\1', p)`,
then `strip().lstrip('- ')`. -/

/-- Splits off the shortest non-empty chunk before the first `]]`, the way
the non-greedy group `(.+?)` matches. -/
def scanClose (acc : List Char) : List Char → Option (List Char × List Char)
  | ']' :: ']' :: rest => if acc.isEmpty then none else some (acc.reverse, rest)
  | c :: rest => scanClose (c :: acc) rest
  | [] => none

/-- Fuel-indexed scanner replacing every `[[X]]` with `X`.  Each step
consumes at least one character, so `fuel = length` always suffices. -/
def stripWikiAux : Nat → List Char → List Char
  | 0, l => l
  | fuel + 1, '[' :: '[' :: rest =>
    match scanClose [] rest with
    | some (content, rest2) => content ++ stripWikiAux fuel rest2
    | none => '[' :: stripWikiAux fuel ('[' :: rest)
  | fuel + 1, c :: rest => c :: stripWikiAux fuel rest
  | _ + 1, [] => []

def stripWiki (l : List Char) : List Char := stripWikiAux l.length l

/-- Python `str.strip()`: whitespace removed from both ends. -/
def strip_ws (l : List Char) : List Char :=
  ((l.dropWhile Char.isWhitespace).reverse.dropWhile Char.isWhitespace).reverse

/-- `clean_prereq = re.sub(r'\[\[(.+?)\]\]', r'\1', prereq)` followed by
`.strip().lstrip('- ')` (engage_agent.py, lines 125-126). -/
def clean_prereq (p : String) : String :=
  String.mk ((strip_ws (stripWiki p.data)).dropWhile (fun c => c = '-' || c = ' '))

/-- Python `str.lower()` on the ASCII range used by priorities. -/
def py_lower (s : String) : String := String.mk (s.data.map Char.toLower)

/-- `EngageAgent.get_priority_score` (engage_agent.py, lines 144-151):
`{'high': 3, 'medium': 2, 'low': 1}.get(priority.lower(), 1)`. -/
def get_priority_score (priority : String) : Nat :=
  if py_lower priority = "high" then 3
  else if py_lower priority = "medium" then 2
  else if py_lower priority = "low" then 1
  else 1

/-! ### The on-disk directive store

A directive file is carried with the data the engage agent reads out of
it: its filename stem, the parsed YAML frontmatter (`None` when
`parse_directive_metadata` fails), the prerequisite references that
`extract_prerequisites` collects from its text, and its age in seconds
(`get_file_age`).  Frontmatter fields looked up with `.get(key, default)`
are `Option`s here. -/

structure FrontMeta where
  priority : Option String := none
  slug : Option String := none
  claude_todo_id : Option String := none
deriving DecidableEq

structure DirFile where
  stem : String
  meta : Option FrontMeta
  prereqs : List String
  age : ℚ
deriving DecidableEq

/-- The store: one list of files per lifecycle folder, each list in the
order the filesystem enumerates it (`Path.glob` returns directory order,
not sorted order). -/
structure FsState where
  newFiles : List DirFile := []
  successFiles : List DirFile := []
  failedFiles : List DirFile := []
  slowFiles : List DirFile := []
  exemplarFiles : List DirFile := []
deriving DecidableEq

def FsState.folderFiles (st : FsState) : Folder → List DirFile
  | Folder.new => st.newFiles
  | Folder.success => st.successFiles
  | Folder.failed => st.failedFiles
  | Folder.slow => st.slowFiles
  | Folder.exemplar => st.exemplarFiles
  | Folder.processing => []

/-- All files sitting in any of the four terminal folders. -/
def terminal_files (st : FsState) : List DirFile :=
  st.successFiles ++ st.failedFiles ++ st.slowFiles ++ st.exemplarFiles

/-- One row of the `completed_info` list that `check_prerequisites_met`
builds (engage_agent.py, lines 110-121): filename stem,
`metadata.get('slug', '')` and `metadata.get('claude_todo_id', '')`, both
empty when the metadata fails to parse. -/
structure CompletedInfo where
  filename : String
  slug : String
  claude_todo_id : String
deriving DecidableEq

def completed_row (f : DirFile) : CompletedInfo :=
  { filename := f.stem
    slug := (f.meta.bind FrontMeta.slug).getD ""
    claude_todo_id := (f.meta.bind FrontMeta.claude_todo_id).getD "" }

/-- `completion_dirs = [success, slow, exemplars]` (line 112): note that
the `failed` folder is NOT scanned. -/
def completed_info (st : FsState) : List CompletedInfo :=
  (st.successFiles ++ st.slowFiles ++ st.exemplarFiles).map completed_row

/-- A cleaned prerequisite reference matches a completed row when it
equals the filename, the slug, or the claude_todo_id (lines 128-135). -/
def row_matches (clean : String) (c : CompletedInfo) : Prop :=
  clean = c.filename ∨ clean = c.slug ∨ clean = c.claude_todo_id

instance (clean : String) (c : CompletedInfo) : Decidable (row_matches clean c) := by
  unfold row_matches; infer_instance

/-- The claim-level reading of prerequisite satisfaction: the reference
`p`, cleaned, matches the directive file `g` on identifier (filename
stem), slug, or external-todo id. -/
def prereq_satisfied_by (p : String) (g : DirFile) : Prop :=
  row_matches (clean_prereq p) (completed_row g)

instance (p : String) (g : DirFile) : Decidable (prereq_satisfied_by p g) := by
  unfold prereq_satisfied_by; infer_instance

/-- `EngageAgent.check_prerequisites_met` (lines 105-142): every
prerequisite, after cleaning, must match some completed row; an empty list
is trivially met (the early `return True`). -/
def check_prerequisites_met (st : FsState) (prerequisites : List String) : Bool :=
  prerequisites.all fun p =>
    (completed_info st).any fun c => decide (row_matches (clean_prereq p) c)

/-- A ready candidate as accumulated by `find_next_directive`
(engage_agent.py, lines 161-195). -/
structure Cand where
  file : DirFile
  priority_score : Nat
  age : ℚ
deriving DecidableEq

/-- One iteration of the candidate loop: a file of `new` yields a
candidate when its metadata parses and its prerequisites are all met,
with `priority = metadata.get('priority', 'medium')` scored by
`get_priority_score`. -/
def candidate_of (st : FsState) (f : DirFile) : Option Cand :=
  match f.meta with
  | none => none
  | some m =>
    if check_prerequisites_met st f.prereqs then
      some { file := f
             priority_score := get_priority_score (m.priority.getD "medium")
             age := f.age }
    else none

def candidate_list (st : FsState) : List Cand :=
  st.newFiles.filterMap (candidate_of st)

/-- `candidates.sort(key=lambda x: (x['priority_score'], x['age']),
reverse=True)`: `a` sorts no later than `b` when `a`'s key
(priority score, age) is lexicographically at least `b`'s. -/
def cand_before (a b : Cand) : Prop :=
  b.priority_score < a.priority_score ∨
    (a.priority_score = b.priority_score ∧ b.age ≤ a.age)

instance : DecidableRel cand_before := fun a b => by
  unfold cand_before; infer_instance

instance : IsTotal Cand cand_before where
  total a b := by
    unfold cand_before
    rcases Nat.lt_trichotomy a.priority_score b.priority_score with h | h | h
    · exact Or.inr (Or.inl h)
    · rcases le_total a.age b.age with h2 | h2
      · exact Or.inr (Or.inr ⟨h.symm, h2⟩)
      · exact Or.inl (Or.inr ⟨h, h2⟩)
    · exact Or.inl (Or.inl h)

instance : IsTrans Cand cand_before where
  trans a b c hab hbc := by
    unfold cand_before at *
    rcases hab with h1 | ⟨h1, h1'⟩ <;> rcases hbc with h2 | ⟨h2, h2'⟩
    · exact Or.inl (h2.trans h1)
    · exact Or.inl (h2 ▸ h1)
    · exact Or.inl (h1 ▸ h2)
    · exact Or.inr ⟨h1.trans h2, h2'.trans h1'⟩

/-- The sorted candidate list.  Python's `list.sort` is a stable sort;
`List.insertionSort` is likewise stable, and any two stable sorts under
the same total preorder agree. -/
def sorted_candidates (st : FsState) : List Cand :=
  List.insertionSort cand_before (candidate_list st)

/-- `EngageAgent.find_next_directive` (lines 161-195): the first candidate
of the sorted list, or `None`. -/
def find_next_directive (st : FsState) : Option DirFile :=
  match sorted_candidates st with
  | [] => none
  | c :: _ => some c.file

/-! ### Relocation with status rewrite

`EngageAgent.move_directive` (lines 669-695): choose the destination, call
`_update_directive_status(file, "completed" if success else "failed")`,
then move the file.  The pair returned is (destination folder, file
content after the status rewrite). -/

def str_completed : Line := "completed".data

def str_failed : Line := "failed".data

def move_directive_fs (content : List Line) (readable succ : Bool)
    (duration threshold : ℚ) (exemplar_enabled : Bool) : Folder × List Line :=
  (move_dest succ duration threshold exemplar_enabled,
   update_directive_status readable content (if succ then str_completed else str_failed))

/-- The per-directive branch of `EngageAgent.run_batch_processing`
(engage_agent.py, lines 834-860): on success `shutil.move` to `success`,
on failure to `failed` — without any call to `_update_directive_status`,
so the content is moved unchanged. -/
def batch_move (content : List Line) (succ : Bool) : Folder × List Line :=
  (if succ then Folder.success else Folder.failed, content)

/-! ### Operation traces

The temporal claims are about the order of the side effects one directive
goes through; each execution path is embedded as the list of effects it
performs, in program order. -/

inductive Event where
  | read (stem : String)
  | claim (stem : String)
  | execute (stem : String)
  | update_output (stem : String)
  | append_session (stem : String)
  | session_update_failed (stem : String)
  | update_status (stem : String)
  | move (stem : String) (dest : Folder)
deriving DecidableEq

/-- `EngageAgent.process_single_directive` (engage_agent.py, lines
707-730), after `find_next_directive` returned a file: execute
(line 715), update the output artifact (718), append the completion
summary to the session context and persist it (721,
`_update_session_context_with_directive` ends in `_save_session_context`),
then `move_directive` (724) which rewrites the status and moves the file.
No claim step appears anywhere on this path. -/
def process_single_trace (stem : String) (succ : Bool)
    (duration threshold : ℚ) (exemplar_enabled : Bool) : List Event :=
  [Event.execute stem,
   Event.update_output stem,
   Event.append_session stem,
   Event.update_status stem,
   Event.move stem (move_dest succ duration threshold exemplar_enabled)]

/-- `EngageAgent._claim_directive` (engage_agent.py, lines 905-934): rename
the file into the sibling `processing` directory (line 921), then
immediately back (line 923); both renames sit inside one handler whose
`FileNotFoundError`/`OSError` arms return `False`.  So: a failure of the
FIRST rename (file gone — claimed by another worker — or a filesystem
error) leaves the file where it was; but if the rename-out succeeded and
the rename-BACK fails, the handler still returns `False` while the file is
left stranded in `processing/`.  The claim succeeds — and the file is back
in `new` — exactly when the file was in `new` and both renames succeeded.
Arguments: the file's location, then whether the rename-out and the
rename-back succeed; returns (claim result, resulting location). -/
def claim_directive (loc : Option Folder) (renameOutOk renameBackOk : Bool) :
    Bool × Option Folder :=
  match loc with
  | some Folder.new =>
    if renameOutOk then
      if renameBackOk then (true, some Folder.new)
      else (false, some Folder.processing)
    else (false, some Folder.new)
  | other => (false, other)

/-- One directive inside `run_batch_processing` (lines 770-888).  The
availability filter (lines 780-798) READS the file before any claim:
`parse_directive_metadata` (782) and `read_text` + `extract_prerequisites`
(788-789).  The processing loop then claims it (813); when the claim
fails, `continue` — nothing further happens to this directive.  When
claimed: `extract_task_content` reads it again (818), `chat_completion`
executes it (828); on success move to `success` (837) then write the
`.out` artifact (840-846); on failure move to `failed` (860) then write
the `.err` artifact (863-869).  The subsequent session update (853 / 876)
is handed the OLD path: inside `_update_session_context_with_directive`,
`extract_task_content` calls `read_text()` on the already-moved path,
raising `FileNotFoundError` BEFORE anything is appended; the exception is
swallowed by the loop's handler (line 880, and `directive_path.exists()`
is false so nothing else happens).  Hence the trace carries a
`session_update_failed` event and NO `append_session` event: batch-moved
directives never enter session history. -/
def run_batch_directive_trace (stem : String) (claimed succ : Bool) : List Event :=
  Event.read stem ::
    (if claimed then
      [Event.claim stem, Event.read stem, Event.execute stem,
       Event.move stem (if succ then Folder.success else Folder.failed),
       Event.update_output stem,
       Event.session_update_failed stem]
    else [])

/-- Every `move` of a stem is strictly preceded by an `append_session` of
the same stem. -/
def append_precedes_move (tr : List Event) : Bool :=
  (List.range tr.length).all fun j =>
    match tr[j]? with
    | some (Event.move s _) => (tr.take j).any fun e => decide (e = Event.append_session s)
    | _ => true

/-- Every `execute` or `move` of a stem is strictly preceded by a `claim`
of the same stem. -/
def claim_precedes_execute (tr : List Event) : Bool :=
  (List.range tr.length).all fun j =>
    match tr[j]? with
    | some (Event.execute s) => (tr.take j).any fun e => decide (e = Event.claim s)
    | some (Event.move s _) => (tr.take j).any fun e => decide (e = Event.claim s)
    | _ => true

def is_claim_event : Event → Bool
  | Event.claim _ => true
  | _ => false

def is_execute_event : Event → Bool
  | Event.execute _ => true
  | _ => false

def is_move_event : Event → Bool
  | Event.move _ _ => true
  | _ => false

/-! ### Provider gateway retry loop

`AIClient._claude_completion` (src/lib/ai_client.py, lines 274-336) turns
every non-success HTTP status into a raised
`requests.exceptions.RequestException` — 429 (line 305), 401 (line 307),
500 (line 309), and everything else 4xx/5xx via `raise_for_status`
(line 311); a transport error is already such an exception.  A 2xx
response that fails to parse is caught by the generic handler (line 328)
and RETURNED as a `success: False` dict instead of raised.
`AIClient.chat_completion` (lines 219-272) loops `retry_attempts` times:
a returned dict (success or malformed) ends the loop immediately; a raised
`RequestException` sleeps `retry_delay` and doubles it, unless this was
the last attempt, in which case the failure surfaces. -/

inductive AttemptOutcome where
  | ok
  | httpError (code : Nat)
  | transportError
  | malformed
deriving DecidableEq

inductive CcResult where
  | completed (success : Bool)
  | exhausted
deriving DecidableEq

structure CcRun where
  result : CcResult
  attempts : Nat
  sleeps : List ℚ
deriving DecidableEq

/-- The `for attempt in range(retry_attempts)` loop of `chat_completion`,
with the outcome of the idx-th attempt scripted by `oc`. -/
def chat_go (oc : Nat → AttemptOutcome) (idx : Nat) (delay : ℚ) : Nat → CcRun
  | 0 => ⟨CcResult.exhausted, 0, []⟩
  | remaining + 1 =>
    match oc idx with
    | AttemptOutcome.ok => ⟨CcResult.completed true, 1, []⟩
    | AttemptOutcome.malformed => ⟨CcResult.completed false, 1, []⟩
    | _ =>
      if remaining = 0 then ⟨CcResult.exhausted, 1, []⟩
      else
        let rest := chat_go oc (idx + 1) (2 * delay) remaining
        ⟨rest.result, rest.attempts + 1, delay :: rest.sleeps⟩

def chat_completion (oc : Nat → AttemptOutcome) (retry_attempts : Nat) (retry_delay : ℚ) :
    CcRun :=
  chat_go oc 0 retry_delay retry_attempts

/-! ### Decomposition output and the forward bridge -/

/-- A to-do record as both the decomposer and the bridge consume it. -/
structure Todo where
  id : String
  content : String
  status : Option String := some "pending"
  priority : Option String := some "medium"
deriving DecidableEq

/-- The per-todo loop of `DirectiveAgent.process_prompt`
(src/agents/directive_agent.py, lines 468-489): for the i-th todo the
prerequisites are `created_slugs.copy()` when `i > 0` (ALL previously
created directive slugs, not just the immediately preceding one) and empty
for the first; afterwards the directive slug `f"{slug}-{todo['id']}"` is
appended to `created_slugs`.  Slug derivation goes through the external
sanitizer (`create_slug`), abstracted as the parameter `slugOf`.  Returns
the (directive slug, prerequisites) pair per todo, in order. -/
def process_prompt_go (slugOf : String → String) :
    List Todo → Nat → List String → List (String × List String)
  | [], _, _ => []
  | t :: rest, i, created =>
    let prereqs := if i > 0 then created else []
    let dslug := slugOf t.content ++ "-" ++ t.id
    (dslug, prereqs) :: process_prompt_go slugOf rest (i + 1) (created ++ [dslug])

def process_prompt_records (slugOf : String → String) (todos : List Todo) :
    List (String × List String) :=
  process_prompt_go slugOf todos 0 []

/-- The frontmatter that `TodoDirectiveBridge._build_directive_from_todo`
(src/lib/todo_directive_bridge.py, lines 173-204) assembles. -/
structure BridgeFrontmatter where
  id : String
  status : String
  priority : String
  slug : String
  platform : String
  model : String
  claude_todo_id : String
  session_id : String
  todo_index : Nat
  total_todos : Nat
  prerequisites : Option (List String)
deriving DecidableEq

/-- `_build_directive_from_todo`: fills the frontmatter from the todo; for
`todo_index > 0` the source executes `prev_todo = todos[todo_index - 1]`
(line 201) where the name `todos` is UNBOUND in that scope (the parameter
is the single `todo`; no enclosing or global `todos` exists), so the call
raises `NameError` before any prerequisites are recorded.  The embedding
returns that exception as an error. -/
def build_directive_from_todo (todo : Todo) (directive_id session_id platform model : String)
    (todo_index total_todos : Nat) : Except String BridgeFrontmatter :=
  let fm : BridgeFrontmatter :=
    { id := directive_id
      status := todo.status.getD "pending"
      priority := todo.priority.getD "medium"
      slug := "todo-" ++ todo.id
      platform := platform
      model := model
      claude_todo_id := todo.id
      session_id := session_id
      todo_index := todo_index
      total_todos := total_todos
      prerequisites := none }
  if todo_index > 0 then
    Except.error "NameError: name todos is not defined"
  else
    Except.ok fm

/-- The loop of `TodoDirectiveBridge.claude_todos_to_directives`
(todo_directive_bridge.py, lines 45-72): for each todo, generate a fresh
id, build the content, write the file, record the id.  There is no handler
around the loop, so the first raised exception aborts the call, leaving
the files written so far on disk.  Returns (ids of directive files
written, the uncaught exception if one was raised).  Fresh ids come from
`_generate_directive_id` (timestamp + random hex), abstracted as `genId`
indexed by position. -/
def claude_todos_to_directives_go (genId : Nat → String) (session platform model : String)
    (total : Nat) : List Todo → Nat → List String × Option String
  | [], _ => ([], none)
  | t :: rest, i =>
    match build_directive_from_todo t (genId i) session platform model i total with
    | Except.error e => ([], some e)
    | Except.ok _ =>
      let r := claude_todos_to_directives_go genId session platform model total rest (i + 1)
      (genId i :: r.1, r.2)

def claude_todos_to_directives (genId : Nat → String) (session platform model : String)
    (todos : List Todo) : List String × Option String :=
  claude_todos_to_directives_go genId session platform model todos.length todos 0

/-! ### Concrete fixtures used by the witnesses and counterexamples -/

/-- A completed directive sitting in `success`, whose slug is `dep`. -/
def exDepFile : DirFile :=
  { stem := "setup-db-1a2b3c4d"
    meta := some { priority := some "high", slug := some "dep", claude_todo_id := none }
    prereqs := []
    age := 90 }

/-- A ready directive in `new` whose single prerequisite is the wiki link
`[[dep]]`. -/
def exReadyFile : DirFile :=
  { stem := "use-db-9f8e7d6c"
    meta := some { priority := some "medium", slug := some "use-db", claude_todo_id := none }
    prereqs := ["[[dep]]"]
    age := 40 }

def exC1State : FsState :=
  { newFiles := [exReadyFile], successFiles := [exDepFile] }

/-- Two equally ready candidates: same priority, same age, stems `bbb`
and `aaa` enumerated in that order. -/
def exFileB : DirFile :=
  { stem := "bbb"
    meta := some { priority := some "high", slug := some "bbb", claude_todo_id := none }
    prereqs := []
    age := 5 }

def exFileA : DirFile :=
  { stem := "aaa"
    meta := some { priority := some "high", slug := some "aaa", claude_todo_id := none }
    prereqs := []
    age := 5 }

def exC7State : FsState := { newFiles := [exFileB, exFileA] }

/-- Lexicographic order on stems, to state which identifier is smaller. -/
def lexLt : List Char → List Char → Bool
  | [], [] => false
  | [], _ :: _ => true
  | _ :: _, [] => false
  | a :: as, b :: bs => decide (a.val < b.val) || (decide (a = b) && lexLt as bs)

/-- Directive content as the writer emits it: one frontmatter status line,
other header lines, a body. -/
def exHeadLine : Line := "id: task-1a2b3c4d".data

def exTailLines : List Line :=
  ["priority: high".data, "created: 2026-01-01T00:00:00".data,
   "slug: fix-login".data, "---".data, "# Directive: fix login".data]

def exContent : List Line :=
  exHeadLine :: (statusPat ++ "pending".data) :: exTailLines

/-- Attempt script for the gateway: the first attempt receives an HTTP 401
response, the second a well-formed success. -/
def oc401 (i : Nat) : AttemptOutcome :=
  if i = 0 then AttemptOutcome.httpError 401 else AttemptOutcome.ok

/-- A two-element to-do batch for the forward bridge. -/
def exTodoA : Todo :=
  { id := "todo-id-1", content := "write tests", status := some "pending"
    priority := some "high" }

def exTodoB : Todo :=
  { id := "todo-id-2", content := "write docs", status := some "pending"
    priority := some "low" }

def exGenId (i : Nat) : String := "1700000000-ab" ++ toString i

/-! ## Helper lemmas -/

theorem hasPrefixL_append (p v : List Char) : hasPrefixL p (p ++ v) = true := by
  induction p with
  | nil => rfl
  | cons c cs ih => simp [hasPrefixL, ih]

theorem findSub_append_self (p v : List Char) (hp : p ≠ []) :
    findSub p (p ++ v) = some 0 := by
  cases p with
  | nil => exact absurd rfl hp
  | cons c cs =>
    have h : hasPrefixL (c :: cs) (c :: (cs ++ v)) = true := by
      rw [← List.cons_append]; exact hasPrefixL_append (c :: cs) v
    rw [List.cons_append]
    unfold findSub
    rw [h]
    rfl

theorem findSub_statusPat_append (v : Line) : findSub statusPat (statusPat ++ v) = some 0 :=
  findSub_append_self statusPat v (by decide)

theorem sub_status_line_of_none {ns l : Line} (h : findSub statusPat l = none) :
    sub_status_line ns l = l := by
  unfold sub_status_line
  rw [h]

theorem map_sub_of_none {ns : Line} {c : List Line}
    (h : ∀ l ∈ c, findSub statusPat l = none) :
    c.map (sub_status_line ns) = c := by
  induction c with
  | nil => rfl
  | cons l ls ih =>
    simp only [List.map_cons]
    rw [sub_status_line_of_none (h l (List.mem_cons_self l ls)),
      ih (fun x hx => h x (List.mem_cons_of_mem l hx))]

theorem find?_append_of_none {p : Line → Bool} {c₁ c₂ : List Line}
    (h : ∀ l ∈ c₁, p l = false) :
    List.find? p (c₁ ++ c₂) = List.find? p c₂ := by
  induction c₁ with
  | nil => rfl
  | cons l ls ih =>
    simp only [List.cons_append, List.find?_cons, h l (List.mem_cons_self l ls)]
    exact ih fun x hx => h x (List.mem_cons_of_mem l hx)

theorem status_value_of_shape {c₁ c₂ : List Line} {v : Line}
    (h₁ : ∀ l ∈ c₁, findSub statusPat l = none) :
    status_value (c₁ ++ (statusPat ++ v) :: c₂) = some v := by
  unfold status_value
  rw [@find?_append_of_none (fun l => (findSub statusPat l).isSome) c₁ ((statusPat ++ v) :: c₂)
      (fun l hl => by show (findSub statusPat l).isSome = false; rw [h₁ l hl]; rfl)]
  simp only [List.find?_cons, findSub_statusPat_append, Option.isSome_some, Nat.zero_add]
  rw [List.drop_left]

/-! ## Claim C5 -/

/-- Claim C5: for every executed directive, failure relocates to `failed`;
success with duration ≤ the exemplar threshold (when `exemplar_enabled`)
relocates to `exemplar`; success with duration > 60 s relocates to `slow`;
otherwise to `success` — the clauses applying in that order, exactly as the
spec lists them — and a successful directive whose duration exactly equals
the threshold is an exemplar.  `move_dest` is the code
(`EngageAgent.move_directive`), `spec_move_class` restates the spec. -/
theorem C5_move_classification :
    (∀ (succ : Bool) (duration threshold : ℚ) (exemplar_enabled : Bool),
      move_dest succ duration threshold exemplar_enabled
        = spec_move_class succ duration threshold exemplar_enabled) ∧
    (∀ threshold : ℚ, move_dest true threshold threshold true = Folder.exemplar) ∧
    settings_default_exemplar_threshold = 30 ∧
    settings_default_exemplar_enabled = true := by
  refine ⟨?_, ?_, rfl, rfl⟩
  · intro succ duration threshold en
    cases succ <;> cases en <;>
      simp only [move_dest, spec_move_class, Bool.false_and, Bool.true_and,
        if_true, if_false, decide_eq_true_eq] <;>
      split_ifs <;> simp_all
  · intro threshold
    simp [move_dest]

/-! ## Claim C10 -/

/-- Claim C10: for a directive file with exactly one line containing
`status: ` (the line `l`, where the pattern first occurs at offset `k`),
the status rewrite of `_update_directive_status` changes only that line —
everything before offset `k` on it is kept and the rest becomes `status: `
followed by the new value — while every other line and the body are
unchanged byte-for-byte; and when the file cannot be read it is left
untouched. -/
theorem C10_status_rewrite_frame (c₁ c₂ : List Line) (l : Line) (k : Nat) (ns : Line)
    (h₁ : ∀ x ∈ c₁, findSub statusPat x = none)
    (h₂ : ∀ x ∈ c₂, findSub statusPat x = none)
    (hk : findSub statusPat l = some k) :
    update_directive_status true (c₁ ++ l :: c₂) ns
        = c₁ ++ (l.take k ++ statusPat ++ ns) :: c₂ ∧
    update_directive_status false (c₁ ++ l :: c₂) ns = c₁ ++ l :: c₂ := by
  constructor
  · unfold update_directive_status
    rw [if_pos rfl, List.map_append, List.map_cons, map_sub_of_none h₁, map_sub_of_none h₂]
    unfold sub_status_line
    rw [hk]
  · rfl

/-- Witness for C10 at a concrete writer-shaped file: the header line
`status: pending` (pattern offset 0) is rewritten, the other five lines
and the body are untouched. -/
theorem C10_status_rewrite_frame_witness :
    update_directive_status true exContent str_completed
        = exHeadLine :: (statusPat ++ str_completed) :: exTailLines ∧
    update_directive_status false exContent str_completed = exContent := by
  have h := C10_status_rewrite_frame [exHeadLine] exTailLines
    (statusPat ++ "pending".data) 0 str_completed
    (by decide) (by decide) (by decide)
  simpa [exContent] using h

/-! ## Claim C2 -/

theorem update_shape {c₁ c₂ : List Line} {v ns : Line}
    (h₁ : ∀ x ∈ c₁, findSub statusPat x = none)
    (h₂ : ∀ x ∈ c₂, findSub statusPat x = none) :
    update_directive_status true (c₁ ++ (statusPat ++ v) :: c₂) ns
      = c₁ ++ (statusPat ++ ns) :: c₂ := by
  unfold update_directive_status
  rw [if_pos rfl, List.map_append, List.map_cons, map_sub_of_none h₁, map_sub_of_none h₂]
  unfold sub_status_line
  rw [findSub_statusPat_append]
  rfl

/-- Claim C2 (amended): on the sequential path (`process_single_directive`
→ `move_directive`), for a readable directive whose unique `status: ` line
carries some value `v` (`pending` for files the writer put into `new`),
the relocation first rewrites that field so that at the moment of the move
it reads `completed` exactly when the destination is a success-class
folder (success, slow, exemplar) and `failed` exactly when the destination
is `failed`; the destination is always terminal.  The batch path moves the
file with no status rewrite, so there the invariant fails (see the
counterexample). -/
theorem C2_sequential_status_matches_folder (c₁ c₂ : List Line) (v : Line)
    (h₁ : ∀ x ∈ c₁, findSub statusPat x = none)
    (h₂ : ∀ x ∈ c₂, findSub statusPat x = none)
    (succ : Bool) (d thr : ℚ) (en : Bool) :
    status_value (move_directive_fs (c₁ ++ (statusPat ++ v) :: c₂) true succ d thr en).2
        = some (if succ then str_completed else str_failed) ∧
    ((move_directive_fs (c₁ ++ (statusPat ++ v) :: c₂) true succ d thr en).1 = Folder.failed
        ↔ succ = false) ∧
    (move_directive_fs (c₁ ++ (statusPat ++ v) :: c₂) true succ d thr en).1
        ∈ terminal_folders := by
  refine ⟨?_, ?_, ?_⟩
  · have h : (move_directive_fs (c₁ ++ (statusPat ++ v) :: c₂) true succ d thr en).2
        = update_directive_status true (c₁ ++ (statusPat ++ v) :: c₂)
            (if succ then str_completed else str_failed) := rfl
    rw [h, update_shape h₁ h₂, status_value_of_shape h₁]
  · show move_dest succ d thr en = Folder.failed ↔ succ = false
    cases succ
    · simp [move_dest]
    · simp only [move_dest, if_true]
      split_ifs <;> simp
  · show move_dest succ d thr en ∈ terminal_folders
    cases succ
    · simp [move_dest, terminal_folders]
    · simp only [move_dest, if_true]
      split_ifs <;> simp [terminal_folders]

/-- Witness for C2 at a concrete writer-shaped file processed successfully
in 10 s with the default threshold: the status field reads `completed` and
the destination is not `failed`. -/
theorem C2_sequential_status_matches_folder_witness :
    status_value (move_directive_fs exContent true true 10 30 true).2
        = some (if true then str_completed else str_failed) ∧
    ((move_directive_fs exContent true true 10 30 true).1 = Folder.failed
        ↔ (true : Bool) = false) ∧
    (move_directive_fs exContent true true 10 30 true).1 ∈ terminal_folders := by
  have h := C2_sequential_status_matches_folder [exHeadLine] exTailLines "pending".data
    (by decide) (by decide) true 10 30 true
  simpa [exContent] using h

/-- Counterexample to claim C2 as stated: `run_batch_processing` relocates
with a bare `shutil.move` and never calls `_update_directive_status`, so a
successful directive lands in the terminal folder `success` with its
status field still reading `pending` — neither `completed` nor `failed`. -/
theorem C2_batch_leaves_pending_counterexample :
    (batch_move exContent true).1 = Folder.success ∧
    Folder.success ∈ terminal_folders ∧
    status_value (batch_move exContent true).2 = some "pending".data ∧
    "pending".data ≠ str_completed ∧
    "pending".data ≠ str_failed := by
  refine ⟨rfl, by decide, ?_, by decide, by decide⟩
  show status_value exContent = _
  have h := @status_value_of_shape [exHeadLine] exTailLines ("pending".data) (by decide)
  simpa [exContent] using h

/-! ## Claim C3 -/

/-- Claim C3 (amended): on the sequential path the completion summary is
appended to the session context and persisted strictly before the
directive file is moved — every `move` in the trace of
`process_single_directive` is preceded by an `append_session` for the same
directive.  In batch mode no completion summary is ever appended for a
processed directive: the trace of `run_batch_processing` contains no
`append_session` at all — the session update is attempted only after the
move, reads the already-moved path, raises, and is swallowed
(`session_update_failed`) — so batch-moved directives are missing from
session history entirely. -/
theorem C3_sequential_append_before_move (stem : String) (succ : Bool)
    (d thr : ℚ) (en : Bool) :
    append_precedes_move (process_single_trace stem succ d thr en) = true ∧
    (∀ claimed succ2 : Bool,
      (run_batch_directive_trace stem claimed succ2).all
        (fun e => decide (e ≠ Event.append_session stem)) = true) ∧
    (∀ succ2 : Bool,
      Event.move stem (if succ2 then Folder.success else Folder.failed)
          ∈ run_batch_directive_trace stem true succ2 ∧
      Event.session_update_failed stem ∈ run_batch_directive_trace stem true succ2) := by
  refine ⟨?_, ?_, ?_⟩
  · simp [append_precedes_move, process_single_trace, List.range_succ]
  · intro claimed succ2
    cases claimed <;> cases succ2 <;> simp [run_batch_directive_trace]
  · intro succ2
    cases succ2 <;> simp [run_batch_directive_trace]

/-- Counterexample to claim C3 as stated: in `run_batch_processing` a
successfully executed directive reaches the terminal folder `success`
(moved at line 837) while NO completion-summary row is appended to the
session context at any point — the post-move session update (line 853)
reads the moved-away path, raises `FileNotFoundError` before appending,
and is swallowed (line 880) — so a terminal-folder directive is missing
from session history, and in particular nothing was appended before the
move. -/
theorem C3_batch_no_append_counterexample :
    Event.move "write-tests-1a2b" Folder.success
        ∈ run_batch_directive_trace "write-tests-1a2b" true true ∧
    (run_batch_directive_trace "write-tests-1a2b" true true).all
        (fun e => decide (e ≠ Event.append_session "write-tests-1a2b")) = true ∧
    Event.session_update_failed "write-tests-1a2b"
        ∈ run_batch_directive_trace "write-tests-1a2b" true true ∧
    append_precedes_move (run_batch_directive_trace "write-tests-1a2b" true true) = false := by
  refine ⟨by decide, by decide, by decide, by decide⟩

/-! ## Claim C4 -/

/-- Claim C4 (amended): claiming exists only on the batch path, and it
does not precede all reads.  In `run_batch_processing` the availability
filter reads each directive's metadata and prerequisite list BEFORE any
claim (the claimed trace starts `read`, then `claim`); the claim does
precede execution and relocation; a failed claim makes the pass skip the
directive entirely (no execute, no move).  `_claim_directive` is the
rename into `processing` and back: it succeeds — file back in `new` —
exactly when the file was in `new` and both renames succeed; a failure of
the first rename leaves the file where it was, while a failure of the
rename-back returns `False` with the file stranded in `processing`.  The
sequential pass (`process_single_directive`) performs no claim at all
(see the counterexample). -/
theorem C4_claim_protocol (stem : String) (succ : Bool) (d thr : ℚ) (en : Bool) :
    (run_batch_directive_trace stem false succ).all
        (fun e => !is_execute_event e && !is_move_event e) = true ∧
    claim_precedes_execute (run_batch_directive_trace stem true succ) = true ∧
    (run_batch_directive_trace stem true succ)[0]? = some (Event.read stem) ∧
    (run_batch_directive_trace stem true succ)[1]? = some (Event.claim stem) ∧
    (∀ renameOutOk renameBackOk : Bool,
      ((claim_directive (some Folder.new) renameOutOk renameBackOk).1 = true
        ↔ renameOutOk = true ∧ renameBackOk = true)) ∧
    claim_directive (some Folder.new) true true = (true, some Folder.new) ∧
    (∀ renameBackOk : Bool,
      claim_directive (some Folder.new) false renameBackOk = (false, some Folder.new)) ∧
    claim_directive (some Folder.new) true false = (false, some Folder.processing) ∧
    (∀ (loc : Option Folder) (renameOutOk renameBackOk : Bool),
      loc ≠ some Folder.new →
      claim_directive loc renameOutOk renameBackOk = (false, loc)) ∧
    (process_single_trace stem succ d thr en).all (fun e => !is_claim_event e) = true := by
  refine ⟨rfl, ?_, rfl, rfl, ?_, rfl, ?_, rfl, ?_, ?_⟩
  · cases succ <;>
      simp [claim_precedes_execute, run_batch_directive_trace, List.range_succ]
  · intro a b
    cases a <;> cases b <;> simp [claim_directive]
  · intro b
    cases b <;> rfl
  · intro loc a b hloc
    rcases loc with _ | f
    · rfl
    · cases f <;> simp_all [claim_directive]
  · simp [process_single_trace, is_claim_event]

/-- Witness for C4 at concrete inputs, discharging the
`loc ≠ some Folder.new` hypothesis at `loc = some Folder.processing`: a
stranded file cannot be claimed and stays where it is; the other
conjuncts are instantiated at a concrete stem. -/
theorem C4_claim_protocol_witness :
    (run_batch_directive_trace "fix-login-1a2b" false true).all
        (fun e => !is_execute_event e && !is_move_event e) = true ∧
    claim_precedes_execute (run_batch_directive_trace "fix-login-1a2b" true true) = true ∧
    claim_directive (some Folder.new) true false = (false, some Folder.processing) ∧
    claim_directive (some Folder.processing) true true = (false, some Folder.processing) ∧
    (process_single_trace "fix-login-1a2b" true 10 30 true).all
        (fun e => !is_claim_event e) = true :=
  have h := C4_claim_protocol "fix-login-1a2b" true 10 30 true
  ⟨h.1, h.2.1,
   h.2.2.2.2.2.2.2.1,
   h.2.2.2.2.2.2.2.2.1 (some Folder.processing) true true (by decide),
   h.2.2.2.2.2.2.2.2.2⟩

/-- Counterexample to claim C4 as stated: the pass of the sequential
execution loop executes and relocates its directive without ever
claiming it — the trace of `process_single_directive` contains an
`execute` and a `move` but no `claim` event. -/
theorem C4_sequential_never_claims_counterexample :
    (process_single_trace "fix-login-1a2b" true 10 30 true).all
        (fun e => !is_claim_event e) = true ∧
    Event.execute "fix-login-1a2b" ∈ process_single_trace "fix-login-1a2b" true 10 30 true ∧
    Event.move "fix-login-1a2b" Folder.exemplar
        ∈ process_single_trace "fix-login-1a2b" true 10 30 true := by
  refine ⟨by decide, by decide, by decide⟩

/-! ## Claim C6 -/

/-- Claim C6 (amended): in `chat_completion` every raised
`RequestException` is retried with the delay doubling — and
`_claude_completion` raises one for EVERY non-success HTTP status,
including 401 (authentication) and any other 4xx, not only 429/5xx and
transport errors; malformed (unparseable) 2xx responses are returned as
failures without any retry; when every attempt raises, the call makes
exactly `retry_attempts` attempts and sleeps the geometric sequence d,
2d, 4d, … between them, surfacing the exhaustion. -/
theorem C6_retry_policy :
    (∀ (oc : Nat → AttemptOutcome) (idx : Nat) (d : ℚ) (n code : Nat),
      oc idx = AttemptOutcome.httpError code →
      chat_go oc idx d (n + 2)
        = ⟨(chat_go oc (idx + 1) (2 * d) (n + 1)).result,
           (chat_go oc (idx + 1) (2 * d) (n + 1)).attempts + 1,
           d :: (chat_go oc (idx + 1) (2 * d) (n + 1)).sleeps⟩) ∧
    (∀ (oc : Nat → AttemptOutcome) (idx : Nat) (d : ℚ) (n : Nat),
      oc idx = AttemptOutcome.transportError →
      chat_go oc idx d (n + 2)
        = ⟨(chat_go oc (idx + 1) (2 * d) (n + 1)).result,
           (chat_go oc (idx + 1) (2 * d) (n + 1)).attempts + 1,
           d :: (chat_go oc (idx + 1) (2 * d) (n + 1)).sleeps⟩) ∧
    (∀ (oc : Nat → AttemptOutcome) (idx : Nat) (d : ℚ) (n : Nat),
      oc idx = AttemptOutcome.malformed →
      chat_go oc idx d (n + 1) = ⟨CcResult.completed false, 1, []⟩) ∧
    (∀ (d : ℚ) (n : Nat),
      chat_completion (fun _ => AttemptOutcome.transportError) (n + 1) d
        = ⟨CcResult.exhausted, n + 1, (List.range n).map (fun i => 2 ^ i * d)⟩) := by
  refine ⟨?_, ?_, ?_, ?_⟩
  · intro oc idx d n code h
    conv_lhs => rw [chat_go]
    rw [h]
    simp
  · intro oc idx d n h
    conv_lhs => rw [chat_go]
    rw [h]
    simp
  · intro oc idx d n h
    conv_lhs => rw [chat_go]
    rw [h]
  · intro d n
    suffices hgen : ∀ (n idx : Nat) (d : ℚ),
        chat_go (fun _ => AttemptOutcome.transportError) idx d (n + 1)
          = ⟨CcResult.exhausted, n + 1, (List.range n).map (fun i => 2 ^ i * d)⟩ by
      exact hgen n 0 d
    intro n
    induction n with
    | zero => intro idx d; rfl
    | succ m ih =>
      intro idx d
      have step : chat_go (fun _ => AttemptOutcome.transportError) idx d (m + 1 + 1)
          = ⟨(chat_go (fun _ => AttemptOutcome.transportError) (idx + 1) (2 * d) (m + 1)).result,
             (chat_go (fun _ => AttemptOutcome.transportError) (idx + 1) (2 * d)
               (m + 1)).attempts + 1,
             d :: (chat_go (fun _ => AttemptOutcome.transportError) (idx + 1) (2 * d)
               (m + 1)).sleeps⟩ := rfl
      rw [step, ih (idx + 1) (2 * d)]
      congr 1
      rw [List.range_succ_eq_map, List.map_cons, List.map_map]
      refine congrArg₂ _ (by simp) ?_
      refine List.map_congr_left fun i _ => ?_
      show 2 ^ i * (2 * d) = 2 ^ Nat.succ i * d
      rw [pow_succ]
      ring

/-- Witness for C6 at concrete inputs: with the 401-then-success script,
three configured attempts and initial delay 1, the first (401) attempt is
followed by a sleep of 1 and a retry. -/
theorem C6_retry_policy_witness :
    chat_go oc401 0 1 3
      = ⟨(chat_go oc401 1 (2 * 1) 2).result,
         (chat_go oc401 1 (2 * 1) 2).attempts + 1,
         1 :: (chat_go oc401 1 (2 * 1) 2).sleeps⟩ :=
  C6_retry_policy.1 oc401 0 1 1 401 rfl

/-- Counterexample to claim C6 as stated: an HTTP 401 response does NOT
fail the call without further attempt — `_claude_completion` raises a
`RequestException` for it (ai_client.py line 307) and `chat_completion`
retries: with outcomes (401, success) and the default three attempts the
call succeeds on attempt two after sleeping the initial delay once. -/
theorem C6_401_retried_counterexample :
    chat_completion oc401 settings_default_retry_attempts settings_default_retry_delay
      = ⟨CcResult.completed true, 2, [1]⟩ ∧
    oc401 0 = AttemptOutcome.httpError 401 := by
  refine ⟨by decide, rfl⟩

/-! ## Claim C1 -/

theorem candidate_of_inv {st : FsState} {f : DirFile} {c : Cand}
    (h : candidate_of st f = some c) :
    c.file = f ∧ check_prerequisites_met st f.prereqs = true := by
  unfold candidate_of at h
  rcases hm : f.meta with _ | m
  · rw [hm] at h; exact absurd h (by simp)
  · rw [hm] at h
    dsimp only at h
    by_cases hc : check_prerequisites_met st f.prereqs = true
    · rw [if_pos hc] at h
      obtain rfl := Option.some.inj h
      exact ⟨rfl, hc⟩
    · rw [if_neg hc] at h
      exact absurd h (by simp)

theorem mem_terminal_of_completed_dirs {st : FsState} {g : DirFile}
    (h : g ∈ st.successFiles ++ st.slowFiles ++ st.exemplarFiles) :
    g ∈ terminal_files st := by
  unfold terminal_files
  simp only [List.mem_append] at h ⊢
  tauto

/-- Claim C1: whenever the execution loop selects a directive from `new`
for dispatch (`find_next_directive` returns it), every one of its
prerequisite references matches — by identifier (filename stem), slug, or
external-todo id, any one sufficing — some directive file sitting in a
terminal folder; contrapositively, a directive with an unmet prerequisite
is never returned and stays in `new`.  (The code scans success, slow and
exemplar, a subset of the four terminal folders.) -/
theorem C1_dispatch_requires_terminal_prereqs (st : FsState) (f : DirFile)
    (h : find_next_directive st = some f) (p : String) (hp : p ∈ f.prereqs) :
    ∃ g ∈ terminal_files st, prereq_satisfied_by p g := by
  unfold find_next_directive at h
  rcases hs : sorted_candidates st with _ | ⟨c, rest⟩ <;> rw [hs] at h
  · cases h
  · have hcf : c.file = f := Option.some.inj h
    have hmem₀ : c ∈ sorted_candidates st := by
      rw [hs]; exact List.mem_cons_self c rest
    have hmem : c ∈ candidate_list st := by
      unfold sorted_candidates at hmem₀
      exact (List.perm_insertionSort cand_before (candidate_list st)).mem_iff.mp hmem₀
    rcases List.mem_filterMap.mp hmem with ⟨a, _, hfa⟩
    obtain ⟨hfile, hchk⟩ := candidate_of_inv hfa
    have hfa2 : f = a := by rw [← hcf, hfile]
    subst hfa2
    have hall := List.all_eq_true.mp hchk p hp
    rcases List.any_eq_true.mp hall with ⟨row, hrow, hmatch⟩
    have hmatch2 : row_matches (clean_prereq p) row := of_decide_eq_true hmatch
    unfold completed_info at hrow
    rcases List.mem_map.mp hrow with ⟨g, hg, hgr⟩
    refine ⟨g, mem_terminal_of_completed_dirs hg, ?_⟩
    unfold prereq_satisfied_by
    rw [hgr]
    exact hmatch2

/-- Witness for C1: a store holding one ready directive in `new` whose
prerequisite `[[dep]]` is satisfied by a file in `success` with slug
`dep`; the loop selects it and the matching terminal file exists. -/
theorem C1_dispatch_requires_terminal_prereqs_witness :
    find_next_directive exC1State = some exReadyFile ∧
    "[[dep]]" ∈ exReadyFile.prereqs ∧
    ∃ g ∈ terminal_files exC1State, prereq_satisfied_by "[[dep]]" g :=
  ⟨by decide, by decide,
   C1_dispatch_requires_terminal_prereqs exC1State exReadyFile (by decide) "[[dep]]"
     (by decide)⟩

/-! ## Claim C7 -/

/-- Claim C7 (amended): ready candidates are ordered by (priority
descending, age descending) — the sorted list is `Sorted` under the
lexicographic key relation, so its key sequence is monotonically
non-increasing — with priority mapped high→3, medium→2, low→1 and any
unknown value→1 (case-insensitively); the returned directive is the head
of the sorted list.  Ties on (priority, age) resolve by enumeration order
(Python's sort is stable: a pair already in key order is left as it was
enumerated), NOT by lexicographic identifier. -/
theorem C7_candidate_ordering :
    (∀ st : FsState, List.Sorted cand_before (sorted_candidates st)) ∧
    (get_priority_score "high" = 3 ∧ get_priority_score "medium" = 2 ∧
     get_priority_score "low" = 1 ∧ get_priority_score "HIGH" = 3 ∧
     get_priority_score "unknown" = 1 ∧ get_priority_score "" = 1) ∧
    (∀ a b : Cand, List.insertionSort cand_before [a, b]
        = if cand_before a b then [a, b] else [b, a]) ∧
    (∀ st : FsState, find_next_directive st = (sorted_candidates st).head?.map Cand.file) := by
  refine ⟨?_, by decide, ?_, ?_⟩
  · intro st
    exact List.sorted_insertionSort cand_before (candidate_list st)
  · intro a b
    simp only [List.insertionSort, List.orderedInsert]
  · intro st
    unfold find_next_directive
    cases hs : sorted_candidates st <;> simp [hs]

/-- Counterexample to claim C7 as stated: two candidates tie on both
priority score (3) and age (5) with stems `bbb` and `aaa`, enumerated in
that order; the loop returns the `bbb` file although `aaa` is the
lexicographically smaller identifier — ties resolve by enumeration order,
not lexicographically. -/
theorem C7_tie_not_lexicographic_counterexample :
    find_next_directive exC7State = some exFileB ∧
    exFileB.stem = "bbb" ∧ exFileA.stem = "aaa" ∧
    candidate_list exC7State
      = [{ file := exFileB, priority_score := 3, age := 5 },
         { file := exFileA, priority_score := 3, age := 5 }] ∧
    lexLt exFileA.stem.data exFileB.stem.data = true := by
  refine ⟨by decide, rfl, rfl, by decide, by decide⟩

/-! ## Claim C8 -/

theorem process_prompt_go_head {slugOf : String → String} {ts : List Todo} {i : Nat}
    {created : List String} {r : String × List String}
    (hi : 0 < i) (h : (process_prompt_go slugOf ts i created)[0]? = some r) :
    r.2 = created := by
  cases ts with
  | nil => simp [process_prompt_go] at h
  | cons t rest =>
    unfold process_prompt_go at h
    rw [List.getElem?_cons_zero] at h
    obtain rfl := Option.some.inj h
    show (if i > 0 then created else []) = created
    rw [if_pos hi]

theorem process_prompt_go_chain (slugOf : String → String) :
    ∀ (ts : List Todo) (i : Nat) (created : List String) (j : Nat)
      (r₁ r₂ : String × List String),
      (process_prompt_go slugOf ts i created)[j]? = some r₁ →
      (process_prompt_go slugOf ts i created)[j + 1]? = some r₂ →
      r₁.1 ∈ r₂.2 := by
  intro ts
  induction ts with
  | nil =>
    intro i created j r₁ r₂ h₁ _
    simp [process_prompt_go] at h₁
  | cons t rest ih =>
    intro i created j r₁ r₂ h₁ h₂
    cases j with
    | zero =>
      unfold process_prompt_go at h₁ h₂
      rw [List.getElem?_cons_zero] at h₁
      obtain rfl := Option.some.inj h₁
      rw [List.getElem?_cons_succ] at h₂
      have h0 := process_prompt_go_head (Nat.succ_pos i) h₂
      rw [h0]
      exact List.mem_append_right created (List.mem_singleton_self _)
    | succ k =>
      unfold process_prompt_go at h₁ h₂
      rw [List.getElem?_cons_succ] at h₁ h₂
      exact ih (i + 1) (created ++ [slugOf t.content ++ "-" ++ t.id]) k r₁ r₂ h₁ h₂

/-- Claim C8: (bug evaluation) the forward bridge
`claude_todos_to_directives` on a two-element to-do batch writes exactly
one directive file and then aborts with the uncaught `NameError` raised by
`_build_directive_from_todo`'s reference to the undefined name `todos`
(todo_directive_bridge.py line 201) — it does not emit one directive per
to-do.  (Decomposition half, which does hold) in `process_prompt` every
record after the first carries a prerequisites list that contains the slug
of the immediately preceding record. -/
theorem C8_chained_prerequisites :
    claude_todos_to_directives exGenId "session-1" "claude" "claude-3-sonnet"
        [exTodoA, exTodoB]
      = (["1700000000-ab0"], some "NameError: name todos is not defined") ∧
    (∀ (slugOf : String → String) (todos : List Todo) (j : Nat)
        (r₁ r₂ : String × List String),
      (process_prompt_records slugOf todos)[j]? = some r₁ →
      (process_prompt_records slugOf todos)[j + 1]? = some r₂ →
      r₁.1 ∈ r₂.2) := by
  refine ⟨by decide, ?_⟩
  intro slugOf todos j r₁ r₂ h₁ h₂
  exact process_prompt_go_chain slugOf todos 0 [] j r₁ r₂ h₁ h₂

/-- Witness for C8's decomposition half at a concrete prompt split: the
second record's prerequisites contain the first record's slug. -/
theorem C8_chained_prerequisites_witness :
    (process_prompt_records (fun s => s) [exTodoA, exTodoB])[0]?
        = some ("write tests-todo-id-1", []) ∧
    (process_prompt_records (fun s => s) [exTodoA, exTodoB])[1]?
        = some ("write docs-todo-id-2", ["write tests-todo-id-1"]) ∧
    "write tests-todo-id-1" ∈ ["write tests-todo-id-1"] :=
  ⟨by decide, by decide,
   C8_chained_prerequisites.2 (fun s => s) [exTodoA, exTodoB] 0
     ("write tests-todo-id-1", []) ("write docs-todo-id-2", ["write tests-todo-id-1"])
     (by decide) (by decide)⟩

/-! ## Claim C9 -/

theorem calculate_cost_sonnet (tIn tOut : Nat) :
    calculate_cost "claude" "claude-3-sonnet" tIn tOut
      = (tIn : ℚ) / 1000 * 0.003 + (tOut : ℚ) / 1000 * 0.015 := by
  simp [calculate_cost, pricing_table]

theorem calculate_cost_example :
    calculate_cost "claude" "claude-3-sonnet" 100 50 = 21 / 20000 := by
  rw [calculate_cost_sonnet]
  norm_num

theorem cost_field_example : cost_field (21 / 20000) = "$0.0011" := by
  unfold cost_field
  rw [show ((21 : ℚ) / 20000 * 10000 + 1 / 2) = ((11 : ℤ) : ℚ) by norm_num,
    Int.floor_intCast]
  decide

/-- Claim C9 (amended): the recorded cost equals tokens_in × input-price /
1000 + tokens_out × output-price / 1000 from the per-(platform, model)
table, and is zero when the model is absent; but the artifact's cost field
is rendered by `f"${cost:.4f}"` with exactly four digits after the decimal
point, so for input 100 / output 50 at $0.003/$0.015 per 1K — cost exactly
21/20000 = 0.00105 — the field reads `$0.0011`, not `$0.00105`. -/
theorem C9_cost_accounting :
    (∀ tIn tOut : Nat, calculate_cost "claude" "claude-3-sonnet" tIn tOut
        = (tIn : ℚ) / 1000 * 0.003 + (tOut : ℚ) / 1000 * 0.015) ∧
    (∀ p m : String, pricing_table p m = none →
      ∀ tIn tOut : Nat, calculate_cost p m tIn tOut = 0) ∧
    calculate_cost "claude" "claude-3-sonnet" 100 50 = 21 / 20000 ∧
    cost_field (calculate_cost "claude" "claude-3-sonnet" 100 50) = "$0.0011" := by
  refine ⟨calculate_cost_sonnet, ?_, calculate_cost_example, ?_⟩
  · intro p m h tIn tOut
    unfold calculate_cost
    rw [h]
    simp
  · rw [calculate_cost_example, cost_field_example]

/-- Witness for C9's absent-model clause at a concrete lookup:
`claude-2` is not in the table, so the computed cost is zero. -/
theorem C9_cost_accounting_witness :
    pricing_table "claude" "claude-2" = none ∧
    calculate_cost "claude" "claude-2" 100 50 = 0 :=
  ⟨by decide, C9_cost_accounting.2.1 "claude" "claude-2" (by decide) 100 50⟩

/-- Counterexample to claim C9 as stated: for input_tokens=100,
output_tokens=50 at $0.003/$0.015 per 1K, the computed cost is exactly
21/20000 = 0.00105, but the artifact field produced by `f"${cost:.4f}"`
is `$0.0011` — it never reads `$0.00105`. -/
theorem C9_cost_field_counterexample :
    cost_field (calculate_cost "claude" "claude-3-sonnet" 100 50) ≠ "$0.00105" ∧
    calculate_cost "claude" "claude-3-sonnet" 100 50 = 21 / 20000 := by
  refine ⟨?_, calculate_cost_example⟩
  rw [calculate_cost_example, cost_field_example]
  decide

end Pipeline
